import Mathlib

/-!
Shallow embedding of `cmd/internal/config/config.go` from the utahfs
repository, together with proofs about its composition and validation
logic.

The file under verification wires together a layered storage stack:
backend selection (B2 / S3), an optional retry decorator, a local WAL,
an optional cache, buffering, block framing, integrity, encryption,
application storage and the block filesystem.

Only `config.go` is available as source.  The constructors it calls
(`persistent.NewB2`, `persistent.NewS3`, `persistent.NewRetry`,
`persistent.NewLocalWAL`, `persistent.NewCache`,
`persistent.NewBufferedStorage`, `persistent.NewSimpleBlock`,
`persistent.WithIntegrity`, `persistent.WithEncryption`,
`persistent.NewAppStorage`, `utahfs.NewBlockFilesystem`) live elsewhere
in the repository and are modelled from the spec (section 6, "External
interfaces"): each fallible constructor either fails with an error
chosen by an environment oracle, or succeeds and returns the wrapped
store.  The wrapped store is represented symbolically by the `Handle`
tree, so that the shape of the composed chain (layer order, presence of
a cache layer, retry bound) is observable in the result.
-/

/-- Error taxonomy of the composition path.  `noProvider`,
`ambiguousProvider` and `missingPassword` are the three errors
constructed by `config.go` itself (`fmt.Errorf` at lines 130, 132 and
76).  `storageInitFailed` is the spec-modelled failure of
`utahfs.NewBlockFilesystem` on non-positive parameters, and `lib`
carries an opaque error produced by one of the other external
constructors. -/
inductive Err where
  | noProvider
  | ambiguousProvider
  | missingPassword
  | storageInitFailed
  | lib (msg : String)
deriving Repr, DecidableEq

/-- The `StorageProvider` record of `config.go` (lines 105-118): two
credential groups (B2 and S3) plus a retry bound. -/
structure StorageProvider where
  B2AcctId : String
  B2AppKey : String
  B2Bucket : String
  B2Url : String
  S3AppId : String
  S3AppKey : String
  S3Bucket : String
  S3Url : String
  S3Region : String
  Retry : Int
deriving Repr, DecidableEq

/-- The `Client` configuration record of `config.go` (lines 14-25).  The
Go field `StorageProvider` is a nullable pointer, modelled as an
`Option`. -/
@[ext]
structure Client where
  DataDir : String
  StorageProvider : Option StorageProvider
  MaxWALSize : Int
  CacheSize : Int
  Password : String
  NumPtrs : Int
  DataSize : Int
deriving Repr, DecidableEq

/-- Symbolic representation of the layered storage handle built by
composition.  Each constructor records one layer wrapped around the
layer beneath it, together with the arguments the layer was built
with, so the shape of the composed chain is observable. -/
inductive Handle where
  | b2 (acctId appKey bucket url : String)
  | s3 (appId appKey bucket url region : String)
  | retry (inner : Handle) (bound : Int)
  | wal (inner : Handle) (dir : String) (maxSize : Int)
  | cache (inner : Handle) (size : Int)
  | buffered (inner : Handle)
  | simpleBlock (inner : Handle)
  | integrity (inner : Handle) (password pin : String)
  | encryption (inner : Handle) (password : String)
  | appStorage (inner : Handle)
  | blockFS (inner : Handle) (numPtrs dataSize : Int)
deriving Repr, DecidableEq

/-- Modelled from the spec: the failure behaviour of the external
constructors called by `config.go` but defined elsewhere in the
repository.  Each oracle receives the same arguments as the Go
constructor and returns `some msg` when that constructor would fail
with an error, `none` when it succeeds.  Constructors that cannot fail
in Go (`NewBufferedStorage`, `NewSimpleBlock`, `NewAppStorage`) have no
oracle. -/
structure Env where
  b2Err : String → String → String → String → Option String
  s3Err : String → String → String → String → String → Option String
  retryErr : Handle → Int → Option String
  walErr : Handle → String → Int → Option String
  cacheErr : Handle → Int → Option String
  integrityErr : Handle → String → String → Option String
  encryptionErr : Handle → String → Option String
  blockFSErr : Handle → Int → Int → Option String

/-- Splits a character list on the slash character, in the manner of
`String.splitOn`. -/
def splitSlash : List Char → List (List Char)
  | [] => [[]]
  | c :: rest =>
    if c = '/' then [] :: splitSlash rest
    else
      match splitSlash rest with
      | [] => [[c]]
      | h :: t => (c :: h) :: t

/-- Model of Go `path.Dir` restricted to already-clean paths: everything
before the last slash; `"."` when there is no slash, `"/"` for a
top-level entry.  `path.Dir` is Go standard library, external to the
repository. -/
def pathDir (p : String) : String :=
  let parts := splitSlash p.data
  if parts.length ≤ 1 then "."
  else
    let d := String.mk (List.intercalate ['/'] parts.dropLast)
    if d = "" then "/" else d

/-- Model of Go `path.Join` on two elements, restricted to already-clean
arguments: empty elements are dropped, the rest joined with a slash.
`path.Join` is Go standard library, external to the repository. -/
def pathJoin (a b : String) : String :=
  if a = "" then b
  else if b = "" then a
  else a ++ "/" ++ b

/-- Modelled from the spec: `persistent.NewB2` connects to the B2
backend or fails (error chosen by the oracle). -/
def newB2 (env : Env) (acctId appKey bucket url : String) : Except Err Handle :=
  match env.b2Err acctId appKey bucket url with
  | some msg => .error (.lib msg)
  | none => .ok (.b2 acctId appKey bucket url)

/-- Modelled from the spec: `persistent.NewS3` connects to the S3
backend or fails (error chosen by the oracle). -/
def newS3 (env : Env) (appId appKey bucket url region : String) : Except Err Handle :=
  match env.s3Err appId appKey bucket url region with
  | some msg => .error (.lib msg)
  | none => .ok (.s3 appId appKey bucket url region)

/-- Modelled from the spec: `persistent.NewRetry` wraps the backend with
a bounded-retry policy, or fails. -/
def newRetry (env : Env) (inner : Handle) (bound : Int) : Except Err Handle :=
  match env.retryErr inner bound with
  | some msg => .error (.lib msg)
  | none => .ok (.retry inner bound)

/-- Modelled from the spec: `persistent.NewLocalWAL` wraps the backend
with a local write-ahead log, or fails (for instance when the local log
location is inaccessible). -/
def newLocalWAL (env : Env) (inner : Handle) (dir : String) (maxSize : Int) : Except Err Handle :=
  match env.walErr inner dir maxSize with
  | some msg => .error (.lib msg)
  | none => .ok (.wal inner dir maxSize)

/-- Modelled from the spec: `persistent.NewCache` wraps the store with a
bounded LRU cache, or fails. -/
def newCache (env : Env) (inner : Handle) (size : Int) : Except Err Handle :=
  match env.cacheErr inner size with
  | some msg => .error (.lib msg)
  | none => .ok (.cache inner size)

/-- Modelled from the spec: `persistent.WithIntegrity` wraps the block
store with the tamper-evidence layer backed by the pin file, or
fails. -/
def withIntegrity (env : Env) (inner : Handle) (password pin : String) : Except Err Handle :=
  match env.integrityErr inner password pin with
  | some msg => .error (.lib msg)
  | none => .ok (.integrity inner password pin)

/-- Modelled from the spec: `persistent.WithEncryption` wraps the block
store with the encryption layer keyed by the password, or fails. -/
def withEncryption (env : Env) (inner : Handle) (password : String) : Except Err Handle :=
  match env.encryptionErr inner password with
  | some msg => .error (.lib msg)
  | none => .ok (.encryption inner password)

/-- Modelled from the spec: `utahfs.NewBlockFilesystem` builds the
file-oriented handle from the application store and the skip-list
parameters; it fails with `StorageInitFailed` when either parameter is
non-positive, and may otherwise fail with a library error. -/
def newBlockFilesystem (env : Env) (inner : Handle) (numPtrs dataSize : Int) : Except Err Handle :=
  if numPtrs ≤ 0 ∨ dataSize ≤ 0 then .error .storageInitFailed
  else
    match env.blockFSErr inner numPtrs dataSize with
    | some msg => .error (.lib msg)
    | none => .ok (.blockFS inner numPtrs dataSize)

/-- Embeds `StorageProvider.hasB2` (config.go lines 120-122): true when
any field of the B2 credential group is set. -/
def StorageProvider.hasB2 (sp : StorageProvider) : Bool :=
  sp.B2AcctId != "" || sp.B2AppKey != "" || sp.B2Bucket != "" || sp.B2Url != ""

/-- Embeds `StorageProvider.hasS3` (config.go lines 124-126): true when
any field of the S3 credential group is set. -/
def StorageProvider.hasS3 (sp : StorageProvider) : Bool :=
  sp.S3AppId != "" || sp.S3AppKey != "" || sp.S3Bucket != "" || sp.S3Url != "" || sp.S3Region != ""

/-- Embeds `StorageProvider.Store` (config.go lines 128-158).  The Go
receiver is a nullable pointer, hence the `Option`.  In the Go source
the backend dispatch is `if sp.hasB2 ... else if sp.hasS3 ...`; after
the two guards exactly one of the two predicates holds, so the
`else`-branch of the dispatch is the S3 arm. -/
def StorageProvider.Store (env : Env) (sp : Option StorageProvider) : Except Err Handle :=
  match sp with
  | none => .error .noProvider
  | some sp =>
    if !sp.hasB2 && !sp.hasS3 then .error .noProvider
    else if sp.hasB2 && sp.hasS3 then .error .ambiguousProvider
    else
      match (if sp.hasB2 then newB2 env sp.B2AcctId sp.B2AppKey sp.B2Bucket sp.B2Url
             else newS3 env sp.S3AppId sp.S3AppKey sp.S3Bucket sp.S3Url sp.S3Region) with
      | .error e => .error e
      | .ok out =>
        if sp.Retry > 1 then newRetry env out sp.Retry
        else .ok out

/-- Embeds the in-place defaulting of `c.DataDir` (config.go lines
40-42). -/
def defaultDataDir (c : Client) (mountPath : String) : Client :=
  if c.DataDir = "" then { c with DataDir := pathJoin (pathDir mountPath) ".utahfs" } else c

/-- Embeds the in-place defaulting of `c.MaxWALSize` (config.go lines
51-53). -/
def defaultMaxWALSize (c : Client) : Client :=
  if c.MaxWALSize = 0 then { c with MaxWALSize := 64 * 512 } else c

/-- Embeds the in-place defaulting of `c.CacheSize` (config.go lines
60-62). -/
def defaultCacheSize (c : Client) : Client :=
  if c.CacheSize = 0 then { c with CacheSize := 32 * 1024 } else c

/-- Embeds the in-place defaulting of `c.NumPtrs` (config.go lines
91-93). -/
def defaultNumPtrs (c : Client) : Client :=
  if c.NumPtrs = 0 then { c with NumPtrs := 12 } else c

/-- Embeds the in-place defaulting of `c.DataSize` (config.go lines
94-96). -/
def defaultDataSize (c : Client) : Client :=
  if c.DataSize = 0 then { c with DataSize := 32 * 1024 } else c

/-- The defaulting steps of `Client.FS`, gathered into one pure function
on the configuration record (the validator/defaulter of spec section
4.1), in the order the source applies them. -/
def defaultClient (c : Client) (mountPath : String) : Client :=
  defaultDataSize (defaultNumPtrs (defaultCacheSize (defaultMaxWALSize (defaultDataDir c mountPath))))

/-- Embeds `Client.FS` (config.go lines 39-103).  The Go method mutates
the receiver in place (the defaulting assignments), so the embedding
returns the final state of the configuration record alongside the
result; an early `return nil, err` corresponds to returning the record
as mutated so far. -/
def Client.FS (c : Client) (mountPath : String) (env : Env) : Except Err Handle × Client :=
  let c := defaultDataDir c mountPath
  match StorageProvider.Store env c.StorageProvider with
  | .error e => (.error e, c)
  | .ok store =>
    let c := defaultMaxWALSize c
    match newLocalWAL env store (pathJoin c.DataDir "wal") c.MaxWALSize with
    | .error e => (.error e, c)
    | .ok relStore =>
      let c := defaultCacheSize c
      match (if c.CacheSize ≠ -1 then newCache env relStore c.CacheSize else .ok relStore) with
      | .error e => (.error e, c)
      | .ok relStore =>
        let block := Handle.simpleBlock (Handle.buffered relStore)
        if c.Password = "" then (.error .missingPassword, c)
        else
          match withIntegrity env block c.Password (pathJoin c.DataDir "pin.json") with
          | .error e => (.error e, c)
          | .ok block =>
            match withEncryption env block c.Password with
            | .error e => (.error e, c)
            | .ok block =>
              let appStore := Handle.appStorage block
              let c := defaultNumPtrs c
              let c := defaultDataSize c
              match newBlockFilesystem env appStore c.NumPtrs c.DataSize with
              | .error e => (.error e, c)
              | .ok bfs => (.ok bfs, c)

/-- Embeds `ClientFromFile` (config.go lines 27-37).  Reading the file
(`ioutil.ReadFile`) and parsing it (`yaml.Unmarshal`) are external
collaborators, passed in as functions; `config.go` itself only
sequences them and returns the parsed record unchanged. -/
def ClientFromFile (readFile : String → Except String String)
    (unmarshal : String → Except String Client) (path : String) : Except String Client :=
  match readFile path with
  | .error e => .error e
  | .ok raw =>
    match unmarshal raw with
    | .error e => .error e
    | .ok parsed => .ok parsed

/-- True when the handle is a bare backend node (B2 or S3), with no
decorator around it. -/
def Handle.isBackend : Handle → Bool
  | .b2 _ _ _ _ => true
  | .s3 _ _ _ _ _ => true
  | _ => false

/-- True when the handle is the retry decorator with the given bound
wrapped directly around a bare backend. -/
def Handle.isRetryOf (h : Handle) (bound : Int) : Bool :=
  match h with
  | .retry inner b => inner.isBackend && b == bound
  | _ => false

/-- True when the layered chain contains a cache layer anywhere. -/
def Handle.hasCache : Handle → Bool
  | .b2 _ _ _ _ => false
  | .s3 _ _ _ _ _ => false
  | .retry inner _ => inner.hasCache
  | .wal inner _ _ => inner.hasCache
  | .cache _ _ => true
  | .buffered inner => inner.hasCache
  | .simpleBlock inner => inner.hasCache
  | .integrity inner _ _ => inner.hasCache
  | .encryption inner _ => inner.hasCache
  | .appStorage inner => inner.hasCache
  | .blockFS inner _ _ => inner.hasCache

/-- True when the handle has the security-ordered shape: the block
filesystem over application storage over encryption over integrity over
block framing over buffering, with both security layers keyed by the
given password.  Encryption is the outermost of the two security
layers, so integrity digests cover ciphertext. -/
def Handle.wellLayered (h : Handle) (pw : String) : Bool :=
  match h with
  | .blockFS (.appStorage (.encryption (.integrity (.simpleBlock (.buffered _)) pw1 _) pw2)) _ _ =>
    pw1 == pw && pw2 == pw
  | _ => false

/-- True when the composition result is an error. -/
def isErr : Except Err Handle → Bool
  | .error _ => true
  | .ok _ => false

/-- An environment in which every external constructor succeeds. -/
def env0 : Env where
  b2Err := fun _ _ _ _ => none
  s3Err := fun _ _ _ _ _ => none
  retryErr := fun _ _ => none
  walErr := fun _ _ _ => none
  cacheErr := fun _ _ => none
  integrityErr := fun _ _ _ => none
  encryptionErr := fun _ _ => none
  blockFSErr := fun _ _ _ => none

/-- A storage-provider record with only the S3 group set and no retry
bound. -/
def spS3 : StorageProvider :=
  ⟨"", "", "", "", "id", "key", "bucket", "", "us-east-1", 0⟩

/-- A storage-provider record with only the S3 group set and a retry
bound of 3. -/
def spS3Retry : StorageProvider :=
  ⟨"", "", "", "", "id", "key", "bucket", "", "us-east-1", 3⟩

/-- A storage-provider record with one field set in each credential
group. -/
def spBoth : StorageProvider :=
  ⟨"acct", "", "", "", "", "", "bucket", "", "", 0⟩

/-- A storage-provider record with no credential field set. -/
def spEmpty : StorageProvider :=
  ⟨"", "", "", "", "", "", "", "", "", 0⟩

/-- A configuration with an empty password and no storage provider. -/
def cNoPwdNoProv : Client :=
  ⟨"", none, 0, 0, "", 0, 0⟩

/-- A configuration with an empty password and a valid S3 provider. -/
def cNoPwdS3 : Client :=
  ⟨"", some spS3, 0, 0, "", 0, 0⟩

/-- A fully usable configuration: S3 provider, password set, all sizing
fields unset. -/
def cGood : Client :=
  ⟨"", some spS3, 0, 0, "hunter2", 0, 0⟩

/-- A usable configuration with the cache disabled via the sentinel
value. -/
def cNoCache : Client :=
  ⟨"", some spS3, 0, -1, "hunter2", 0, 0⟩

/-- A file-reading collaborator that always succeeds with a fixed
document. -/
def rf0 : String → Except String String := fun _ => .ok "password:"

/-- A parsing collaborator that always succeeds with the empty-password,
provider-less configuration. -/
def um0 : String → Except String Client := fun _ => .ok cNoPwdNoProv


/-- A storage-provider record with only the B2 group set. -/
def spB2 : StorageProvider :=
  ⟨"acct", "appkey", "bkt", "", "", "", "", "", "", 0⟩

/-- A configuration with an empty password and a valid B2 provider. -/
def cNoPwdB2 : Client :=
  ⟨"", some spB2, 0, 0, "", 0, 0⟩

/-- An environment in which connecting to the B2 backend fails and every
other constructor succeeds. -/
def envB2Down : Env :=
  { env0 with b2Err := fun _ _ _ _ => some "b2 down" }

/-- The handle composed from `cGood` under `env0`: WAL over the S3
backend, cache, buffering, block framing, integrity, encryption,
application storage, block filesystem, with every sizing default
applied. -/
def bfsGood : Handle :=
  .blockFS (.appStorage (.encryption (.integrity (.simpleBlock (.buffered
    (.cache (.wal (.s3 "id" "key" "bucket" "" "us-east-1") "/mnt/.utahfs/wal" (64 * 512))
      (32 * 1024))))
    "hunter2" "/mnt/.utahfs/pin.json") "hunter2")) 12 (32 * 1024)

/-- The final state of `cGood` after a successful composition against
mount path `/mnt/utah`. -/
def cGoodFinal : Client :=
  ⟨"/mnt/.utahfs", some spS3, 64 * 512, 32 * 1024, "hunter2", 12, 32 * 1024⟩

/-- The handle composed from `cNoCache` under `env0`: as `bfsGood` but
with no cache layer in the chain. -/
def bfsNoCache : Handle :=
  .blockFS (.appStorage (.encryption (.integrity (.simpleBlock (.buffered
    (.wal (.s3 "id" "key" "bucket" "" "us-east-1") "/mnt/.utahfs/wal" (64 * 512))))
    "hunter2" "/mnt/.utahfs/pin.json") "hunter2")) 12 (32 * 1024)

/-- The final state of `cNoCache` after a successful composition against
mount path `/mnt/utah`. -/
def cNoCacheFinal : Client :=
  ⟨"/mnt/.utahfs", some spS3, 64 * 512, -1, "hunter2", 12, 32 * 1024⟩

/-- Helper: a bare backend node contains no cache layer. -/
lemma isBackend_hasCache_false (h : Handle) (hb : h.isBackend = true) : h.hasCache = false := by
  cases h <;> simp_all [Handle.isBackend, Handle.hasCache]

/-- Helper: on success, `StorageProvider.Store` returns either the bare
connected backend (retry bound at most 1) or the retry decorator with
the configured bound wrapped directly around it (retry bound above
1). -/
lemma store_ok_shape (env : Env) (sp : StorageProvider) (st : Handle)
    (h : StorageProvider.Store env (some sp) = .ok st) :
    ∃ out, Handle.isBackend out = true ∧
      ((1 < sp.Retry ∧ st = .retry out sp.Retry) ∨ (sp.Retry ≤ 1 ∧ st = out)) := by
  simp only [StorageProvider.Store] at h
  split at h
  · exact absurd h (by simp)
  · split at h
    · exact absurd h (by simp)
    · rename_i hb hs
      split at h
      · exact absurd h (by simp)
      · rename_i out heq
        refine ⟨out, ?_, ?_⟩
        · split at heq <;>
            · simp only [newB2, newS3] at heq
              split at heq
              · exact absurd heq (by simp)
              · cases heq; rfl
        · by_cases hr : 1 < sp.Retry
          · left
            refine ⟨hr, ?_⟩
            rw [if_pos hr] at h
            simp only [newRetry] at h
            split at h
            · exact absurd h (by simp)
            · cases h; rfl
          · right
            refine ⟨by omega, ?_⟩
            rw [if_neg hr] at h
            cases h; rfl

/-- C3: for every storage-provider record in which both credential
groups have at least one field set, `StorageProvider.Store` fails with
the ambiguous-provider error; the result is the same under every
environment, so no backend constructor is consulted and no backend
connection is made. -/
theorem store_both_groups_ambiguous (sp : StorageProvider) (env : Env)
    (hb : sp.hasB2 = true) (hs : sp.hasS3 = true) :
    StorageProvider.Store env (some sp) = .error .ambiguousProvider := by
  simp [StorageProvider.Store, hb, hs]

/-- Witness for C3: a record with one field set in each group is
rejected as ambiguous. -/
theorem store_both_groups_ambiguous_witness :
    StorageProvider.Store env0 (some spBoth) = .error .ambiguousProvider :=
  store_both_groups_ambiguous spBoth env0 rfl rfl

/-- C4: for every storage-provider record in which neither credential
group has any field set, `StorageProvider.Store` fails with the
no-provider error; the result is the same under every environment, so
no backend connection is made. -/
theorem store_no_groups_noProvider (sp : StorageProvider) (env : Env)
    (hb : sp.hasB2 = false) (hs : sp.hasS3 = false) :
    StorageProvider.Store env (some sp) = .error .noProvider := by
  simp [StorageProvider.Store, hb, hs]

/-- Witness for C4: the all-empty record is rejected with the
no-provider error. -/
theorem store_no_groups_noProvider_witness :
    StorageProvider.Store env0 (some spEmpty) = .error .noProvider :=
  store_no_groups_noProvider spEmpty env0 rfl rfl

/-- C9: calling `Store` on a nil receiver (no storage-provider record at
all) returns the no-provider error under every environment — the
absent-record case is folded into the empty-credentials case by the
short-circuiting nil check, and no field of the receiver is ever
read. -/
theorem store_nil_receiver_noProvider (env : Env) :
    StorageProvider.Store env none = .error .noProvider := rfl

/-- C5: when `StorageProvider.Store` succeeds, the returned handle is
the retry decorator with the configured bound wrapped around the
connected backend exactly when the retry bound is greater than 1; for a
bound of 1 or less (in particular 0 or 1) the backend is returned
unwrapped. -/
theorem store_retry_wrapping (env : Env) (sp : StorageProvider) (st : Handle)
    (h : StorageProvider.Store env (some sp) = .ok st) :
    (1 < sp.Retry → Handle.isRetryOf st sp.Retry = true) ∧
    (sp.Retry ≤ 1 → Handle.isBackend st = true) := by
  obtain ⟨out, hout, hcase⟩ := store_ok_shape env sp st h
  rcases hcase with ⟨hr, rfl⟩ | ⟨hr, rfl⟩
  · exact ⟨fun _ => by simp [Handle.isRetryOf, hout], fun hle => absurd hr (by omega)⟩
  · exact ⟨fun hgt => absurd hgt (by omega), fun _ => hout⟩

/-- Witness for C5: with a retry bound of 3 the S3 backend comes back
wrapped in the retry decorator with bound 3. -/
theorem store_retry_wrapping_witness :
    Handle.isRetryOf (.retry (.s3 "id" "key" "bucket" "" "us-east-1") 3) 3 = true :=
  (store_retry_wrapping env0 spS3Retry (.retry (.s3 "id" "key" "bucket" "" "us-east-1") 3) rfl).1
    (by norm_num [spS3Retry])

/-- C10: `ClientFromFile` performs no semantic validation: whenever the
file read and the YAML parse both succeed, it returns the parsed record
with no error, whatever the record contains — an empty password or an
absent storage provider is not rejected here. -/
theorem clientFromFile_no_validation (readFile : String → Except String String)
    (unmarshal : String → Except String Client) (p raw : String) (c : Client)
    (hr : readFile p = .ok raw) (hu : unmarshal raw = .ok c) :
    ClientFromFile readFile unmarshal p = .ok c := by
  simp [ClientFromFile, hr, hu]

/-- Witness for C10: a parse producing the empty-password, provider-less
configuration is returned as-is, with no error. -/
theorem clientFromFile_no_validation_witness :
    cNoPwdNoProv.Password = "" ∧
      ClientFromFile rf0 um0 "utahfs.yaml" = .ok cNoPwdNoProv :=
  ⟨rfl, clientFromFile_no_validation rf0 um0 "utahfs.yaml" "password:" cNoPwdNoProv rfl rfl⟩

/-- Projection of `defaultDataDir`: the data directory is defaulted from
the mount path when unset. -/
@[simp] lemma defaultDataDir_DataDir (c : Client) (m : String) :
    (defaultDataDir c m).DataDir = if c.DataDir = "" then pathJoin (pathDir m) ".utahfs" else c.DataDir := by
  unfold defaultDataDir; split <;> simp_all

@[simp] lemma defaultDataDir_StorageProvider (c : Client) (m : String) :
    (defaultDataDir c m).StorageProvider = c.StorageProvider := by
  unfold defaultDataDir; split <;> rfl

@[simp] lemma defaultDataDir_MaxWALSize (c : Client) (m : String) :
    (defaultDataDir c m).MaxWALSize = c.MaxWALSize := by
  unfold defaultDataDir; split <;> rfl

@[simp] lemma defaultDataDir_CacheSize (c : Client) (m : String) :
    (defaultDataDir c m).CacheSize = c.CacheSize := by
  unfold defaultDataDir; split <;> rfl

@[simp] lemma defaultDataDir_Password (c : Client) (m : String) :
    (defaultDataDir c m).Password = c.Password := by
  unfold defaultDataDir; split <;> rfl

@[simp] lemma defaultDataDir_NumPtrs (c : Client) (m : String) :
    (defaultDataDir c m).NumPtrs = c.NumPtrs := by
  unfold defaultDataDir; split <;> rfl

@[simp] lemma defaultDataDir_DataSize (c : Client) (m : String) :
    (defaultDataDir c m).DataSize = c.DataSize := by
  unfold defaultDataDir; split <;> rfl

/-- Projection of `defaultMaxWALSize`: the WAL bound is defaulted to
64*512 blocks when unset. -/
@[simp] lemma defaultMaxWALSize_MaxWALSize (c : Client) :
    (defaultMaxWALSize c).MaxWALSize = if c.MaxWALSize = 0 then 64 * 512 else c.MaxWALSize := by
  unfold defaultMaxWALSize; split <;> simp_all

@[simp] lemma defaultMaxWALSize_DataDir (c : Client) :
    (defaultMaxWALSize c).DataDir = c.DataDir := by
  unfold defaultMaxWALSize; split <;> rfl

@[simp] lemma defaultMaxWALSize_StorageProvider (c : Client) :
    (defaultMaxWALSize c).StorageProvider = c.StorageProvider := by
  unfold defaultMaxWALSize; split <;> rfl

@[simp] lemma defaultMaxWALSize_CacheSize (c : Client) :
    (defaultMaxWALSize c).CacheSize = c.CacheSize := by
  unfold defaultMaxWALSize; split <;> rfl

@[simp] lemma defaultMaxWALSize_Password (c : Client) :
    (defaultMaxWALSize c).Password = c.Password := by
  unfold defaultMaxWALSize; split <;> rfl

@[simp] lemma defaultMaxWALSize_NumPtrs (c : Client) :
    (defaultMaxWALSize c).NumPtrs = c.NumPtrs := by
  unfold defaultMaxWALSize; split <;> rfl

@[simp] lemma defaultMaxWALSize_DataSize (c : Client) :
    (defaultMaxWALSize c).DataSize = c.DataSize := by
  unfold defaultMaxWALSize; split <;> rfl

/-- Projection of `defaultCacheSize`: the cache bound is defaulted to
32*1024 blocks when unset. -/
@[simp] lemma defaultCacheSize_CacheSize (c : Client) :
    (defaultCacheSize c).CacheSize = if c.CacheSize = 0 then 32 * 1024 else c.CacheSize := by
  unfold defaultCacheSize; split <;> simp_all

@[simp] lemma defaultCacheSize_DataDir (c : Client) :
    (defaultCacheSize c).DataDir = c.DataDir := by
  unfold defaultCacheSize; split <;> rfl

@[simp] lemma defaultCacheSize_StorageProvider (c : Client) :
    (defaultCacheSize c).StorageProvider = c.StorageProvider := by
  unfold defaultCacheSize; split <;> rfl

@[simp] lemma defaultCacheSize_MaxWALSize (c : Client) :
    (defaultCacheSize c).MaxWALSize = c.MaxWALSize := by
  unfold defaultCacheSize; split <;> rfl

@[simp] lemma defaultCacheSize_Password (c : Client) :
    (defaultCacheSize c).Password = c.Password := by
  unfold defaultCacheSize; split <;> rfl

@[simp] lemma defaultCacheSize_NumPtrs (c : Client) :
    (defaultCacheSize c).NumPtrs = c.NumPtrs := by
  unfold defaultCacheSize; split <;> rfl

@[simp] lemma defaultCacheSize_DataSize (c : Client) :
    (defaultCacheSize c).DataSize = c.DataSize := by
  unfold defaultCacheSize; split <;> rfl

/-- Projection of `defaultNumPtrs`: the pointer fan-out is defaulted to
12 when unset. -/
@[simp] lemma defaultNumPtrs_NumPtrs (c : Client) :
    (defaultNumPtrs c).NumPtrs = if c.NumPtrs = 0 then 12 else c.NumPtrs := by
  unfold defaultNumPtrs; split <;> simp_all

@[simp] lemma defaultNumPtrs_DataDir (c : Client) :
    (defaultNumPtrs c).DataDir = c.DataDir := by
  unfold defaultNumPtrs; split <;> rfl

@[simp] lemma defaultNumPtrs_StorageProvider (c : Client) :
    (defaultNumPtrs c).StorageProvider = c.StorageProvider := by
  unfold defaultNumPtrs; split <;> rfl

@[simp] lemma defaultNumPtrs_MaxWALSize (c : Client) :
    (defaultNumPtrs c).MaxWALSize = c.MaxWALSize := by
  unfold defaultNumPtrs; split <;> rfl

@[simp] lemma defaultNumPtrs_CacheSize (c : Client) :
    (defaultNumPtrs c).CacheSize = c.CacheSize := by
  unfold defaultNumPtrs; split <;> rfl

@[simp] lemma defaultNumPtrs_Password (c : Client) :
    (defaultNumPtrs c).Password = c.Password := by
  unfold defaultNumPtrs; split <;> rfl

@[simp] lemma defaultNumPtrs_DataSize (c : Client) :
    (defaultNumPtrs c).DataSize = c.DataSize := by
  unfold defaultNumPtrs; split <;> rfl

/-- Projection of `defaultDataSize`: the per-block data size is
defaulted to 32*1024 bytes when unset. -/
@[simp] lemma defaultDataSize_DataSize (c : Client) :
    (defaultDataSize c).DataSize = if c.DataSize = 0 then 32 * 1024 else c.DataSize := by
  unfold defaultDataSize; split <;> simp_all

@[simp] lemma defaultDataSize_DataDir (c : Client) :
    (defaultDataSize c).DataDir = c.DataDir := by
  unfold defaultDataSize; split <;> rfl

@[simp] lemma defaultDataSize_StorageProvider (c : Client) :
    (defaultDataSize c).StorageProvider = c.StorageProvider := by
  unfold defaultDataSize; split <;> rfl

@[simp] lemma defaultDataSize_MaxWALSize (c : Client) :
    (defaultDataSize c).MaxWALSize = c.MaxWALSize := by
  unfold defaultDataSize; split <;> rfl

@[simp] lemma defaultDataSize_CacheSize (c : Client) :
    (defaultDataSize c).CacheSize = c.CacheSize := by
  unfold defaultDataSize; split <;> rfl

@[simp] lemma defaultDataSize_Password (c : Client) :
    (defaultDataSize c).Password = c.Password := by
  unfold defaultDataSize; split <;> rfl

@[simp] lemma defaultDataSize_NumPtrs (c : Client) :
    (defaultDataSize c).NumPtrs = c.NumPtrs := by
  unfold defaultDataSize; split <;> rfl

/-- C8: the defaulting step is idempotent — applying it a second time,
with the same mount path, to an already-defaulted configuration leaves
every field unchanged. -/
theorem defaulting_idempotent (c : Client) (m : String) :
    defaultClient (defaultClient c m) m = defaultClient c m := by
  apply Client.ext <;>
    simp only [defaultClient, defaultDataSize_DataSize, defaultDataSize_DataDir,
      defaultDataSize_StorageProvider, defaultDataSize_MaxWALSize, defaultDataSize_CacheSize,
      defaultDataSize_Password, defaultDataSize_NumPtrs, defaultNumPtrs_NumPtrs,
      defaultNumPtrs_DataDir, defaultNumPtrs_StorageProvider, defaultNumPtrs_MaxWALSize,
      defaultNumPtrs_CacheSize, defaultNumPtrs_Password, defaultNumPtrs_DataSize,
      defaultCacheSize_CacheSize, defaultCacheSize_DataDir, defaultCacheSize_StorageProvider,
      defaultCacheSize_MaxWALSize, defaultCacheSize_Password, defaultCacheSize_NumPtrs,
      defaultCacheSize_DataSize, defaultMaxWALSize_MaxWALSize, defaultMaxWALSize_DataDir,
      defaultMaxWALSize_StorageProvider, defaultMaxWALSize_CacheSize, defaultMaxWALSize_Password,
      defaultMaxWALSize_NumPtrs, defaultMaxWALSize_DataSize, defaultDataDir_DataDir,
      defaultDataDir_StorageProvider, defaultDataDir_MaxWALSize, defaultDataDir_CacheSize,
      defaultDataDir_Password, defaultDataDir_NumPtrs, defaultDataDir_DataSize] <;>
    split_ifs <;> simp_all

/-- C7 (amended): the mutations `Client.FS` makes to the configuration
record are exactly the in-place defaulting steps — whether composition
fails or succeeds, the final state of the record is some prefix of the
defaulting pipeline applied to the original record, so the password and
credential fields are never changed; and a failing composition returns
an error, never a handle. -/
theorem fs_mutations_are_defaulting (c : Client) (m : String) (env : Env) :
    ((Client.FS c m env).2 = defaultDataDir c m ∨
     (Client.FS c m env).2 = defaultMaxWALSize (defaultDataDir c m) ∨
     (Client.FS c m env).2 = defaultCacheSize (defaultMaxWALSize (defaultDataDir c m)) ∨
     (Client.FS c m env).2 = defaultClient c m) ∧
    (Client.FS c m env).2.Password = c.Password ∧
    (Client.FS c m env).2.StorageProvider = c.StorageProvider := by
  have hmain : (Client.FS c m env).2 = defaultDataDir c m ∨
      (Client.FS c m env).2 = defaultMaxWALSize (defaultDataDir c m) ∨
      (Client.FS c m env).2 = defaultCacheSize (defaultMaxWALSize (defaultDataDir c m)) ∨
      (Client.FS c m env).2 = defaultClient c m := by
    simp only [Client.FS, defaultClient]
    repeat' split
    all_goals simp
  refine ⟨hmain, ?_, ?_⟩ <;> rcases hmain with h | h | h | h <;> rw [h] <;> simp [defaultClient]

/-- Counterexample to C7 as stated: on this configuration composition
fails (there is no storage provider), yet the configuration record has
been mutated — the data directory was defaulted in place before the
failure. -/
theorem fs_failure_mutates_record :
    isErr (Client.FS cNoPwdNoProv "/mnt/utah" env0).1 = true ∧
    (Client.FS cNoPwdNoProv "/mnt/utah" env0).2 ≠ cNoPwdNoProv := by
  constructor
  · rfl
  · intro h
    have : (Client.FS cNoPwdNoProv "/mnt/utah" env0).2.DataDir = "/mnt/.utahfs" := rfl
    rw [h] at this
    exact absurd this (by decide)

/-- Helper: inversion of a successful composition.  A successful
`Client.FS` run leaves the record fully defaulted, implies the password
was non-empty, and produces the fixed layer chain: block filesystem over
application storage over encryption over integrity over block framing
over buffering over (optionally cached) WAL over the selected
backend. -/
lemma fs_ok_inversion (c : Client) (m : String) (env : Env) (bfs : Handle) (c₂ : Client)
    (h : Client.FS c m env = (.ok bfs, c₂)) :
    c₂ = defaultClient c m ∧ c.Password ≠ "" ∧
    ∃ st rel,
      StorageProvider.Store env c.StorageProvider = .ok st ∧
      ((c.CacheSize = -1 ∧ rel = .wal st (pathJoin c₂.DataDir "wal") c₂.MaxWALSize) ∨
       (c.CacheSize ≠ -1 ∧ rel = .cache (.wal st (pathJoin c₂.DataDir "wal") c₂.MaxWALSize) c₂.CacheSize)) ∧
      bfs = .blockFS (.appStorage (.encryption (.integrity (.simpleBlock (.buffered rel))
        c.Password (pathJoin c₂.DataDir "pin.json")) c.Password)) c₂.NumPtrs c₂.DataSize := by
  simp only [Client.FS] at h
  split at h
  · simp at h
  · rename_i st heqS
    split at h
    · simp at h
    · rename_i rel heqW
      simp only [newLocalWAL] at heqW
      split at heqW
      · simp at heqW
      · injection heqW with hrel
        subst hrel
        split at h
        · simp at h
        · rename_i rel2 heqC
          have hrel2 : (c.CacheSize = -1 ∧ rel2 = .wal st (pathJoin (defaultMaxWALSize (defaultDataDir c m)).DataDir "wal") (defaultMaxWALSize (defaultDataDir c m)).MaxWALSize) ∨
              (c.CacheSize ≠ -1 ∧ rel2 = .cache (.wal st (pathJoin (defaultMaxWALSize (defaultDataDir c m)).DataDir "wal") (defaultMaxWALSize (defaultDataDir c m)).MaxWALSize) ((defaultCacheSize (defaultMaxWALSize (defaultDataDir c m))).CacheSize)) := by
            by_cases hcs : c.CacheSize = -1
            · left
              refine ⟨hcs, ?_⟩
              rw [if_neg (by simp [hcs])] at heqC
              injection heqC with h2
              exact h2.symm
            · right
              refine ⟨hcs, ?_⟩
              rw [if_pos (by simp only [defaultCacheSize_CacheSize, defaultMaxWALSize_CacheSize,
                defaultDataDir_CacheSize]; split_ifs <;> omega)] at heqC
              simp only [newCache] at heqC
              split at heqC
              · simp at heqC
              · injection heqC with h2
                exact h2.symm
          split at h
          · simp at h
          · rename_i hpw
            split at h
            · simp at h
            · rename_i blkI heqI
              simp only [withIntegrity] at heqI
              split at heqI
              · simp at heqI
              · injection heqI with hI
                subst hI
                split at h
                · simp at h
                · rename_i blkE heqE
                  simp only [withEncryption] at heqE
                  split at heqE
                  · simp at heqE
                  · injection heqE with hE
                    subst hE
                    split at h
                    · simp at h
                    · rename_i out heqB
                      simp only [Prod.mk.injEq] at h
                      obtain ⟨hb, hc2⟩ := h
                      injection hb with hb
                      subst hb
                      subst hc2
                      simp only [newBlockFilesystem] at heqB
                      split at heqB
                      · simp at heqB
                      · split at heqB
                        · simp at heqB
                        · injection heqB with hout
                          subst hout
                          refine ⟨rfl, by simpa using hpw, st, rel2, by simpa using heqS, ?_, by simp⟩
                          rcases hrel2 with ⟨hcs, hr⟩ | ⟨hcs, hr⟩
                          · exact Or.inl ⟨hcs, by rw [hr]; simp⟩
                          · exact Or.inr ⟨hcs, by rw [hr]; simp⟩

/-- Helper: backend selection never consults the cache constructor. -/
lemma store_cacheErr_irrelevant (env : Env) (f : Handle → Int → Option String)
    (spo : Option StorageProvider) :
    StorageProvider.Store { env with cacheErr := f } spo = StorageProvider.Store env spo := by
  cases spo with
  | none => rfl
  | some sp => rfl

/-- Helper: a successfully selected backend (with or without the retry
decorator) contains no cache layer. -/
lemma store_ok_hasCache_false (env : Env) (spo : Option StorageProvider) (st : Handle)
    (h : StorageProvider.Store env spo = .ok st) : st.hasCache = false := by
  cases spo with
  | none => simp [StorageProvider.Store] at h
  | some sp =>
    obtain ⟨out, hout, hcase⟩ := store_ok_shape env sp st h
    rcases hcase with ⟨-, h2⟩ | ⟨-, h2⟩ <;> rw [h2]
    · simp [Handle.hasCache, isBackend_hasCache_false out hout]
    · exact isBackend_hasCache_false out hout

/-- Helper: when the cache size is the disabled sentinel -1, the whole
composition is independent of the cache constructor, i.e. the cache
constructor is never invoked. -/
lemma fs_cacheErr_irrelevant (c : Client) (m : String) (env : Env)
    (f : Handle → Int → Option String) (hcs : c.CacheSize = -1) :
    Client.FS c m { env with cacheErr := f } = Client.FS c m env := by
  have hcond : (defaultCacheSize (defaultMaxWALSize (defaultDataDir c m))).CacheSize = -1 := by
    simp [hcs]
  simp only [Client.FS, store_cacheErr_irrelevant, hcond]
  norm_num
  rfl

/-- C2: in every successfully composed handle the encryption layer is
the outermost of the two security layers — it is applied directly
around the integrity layer, which sits above framing and buffering, and
only application storage and the block filesystem sit above encryption.
Integrity digests are therefore computed over ciphertext. -/
theorem fs_encryption_outermost (c : Client) (m : String) (env : Env) (bfs : Handle) (c₂ : Client)
    (h : Client.FS c m env = (.ok bfs, c₂)) :
    Handle.wellLayered bfs c.Password = true := by
  obtain ⟨-, -, st, rel, -, -, hbfs⟩ := fs_ok_inversion c m env bfs c₂ h
  subst hbfs
  simp [Handle.wellLayered]

/-- Witness for C2: the handle composed from `cGood` has the
security-ordered shape. -/
theorem fs_encryption_outermost_witness :
    Handle.wellLayered bfsGood "hunter2" = true :=
  fs_encryption_outermost cGood "/mnt/utah" env0 bfsGood cGoodFinal rfl

/-- C6: during a successful composition every unset (zero) sizing field
is replaced by its documented default — WAL capacity 64*512 blocks,
cache capacity 32*1024 blocks, pointer fan-out 12, per-block data size
32*1024 bytes — and a cache capacity equal to the disabled sentinel -1
yields a chain with no cache layer, the cache constructor never being
invoked (the result is independent of the cache oracle). -/
theorem fs_defaults_and_cache_sentinel (c : Client) (m : String) (env : Env) (bfs : Handle)
    (c₂ : Client) (h : Client.FS c m env = (.ok bfs, c₂)) :
    (c.MaxWALSize = 0 → c₂.MaxWALSize = 64 * 512) ∧
    (c.CacheSize = 0 → c₂.CacheSize = 32 * 1024) ∧
    (c.NumPtrs = 0 → c₂.NumPtrs = 12) ∧
    (c.DataSize = 0 → c₂.DataSize = 32 * 1024) ∧
    (c.CacheSize = -1 → Handle.hasCache bfs = false ∧
      ∀ f, Client.FS c m { env with cacheErr := f } = Client.FS c m env) := by
  obtain ⟨hc2, hpw, st, rel, hst, hrel, hbfs⟩ := fs_ok_inversion c m env bfs c₂ h
  subst hc2
  refine ⟨fun hw => by simp [defaultClient, hw], fun hcs => by simp [defaultClient, hcs],
    fun hnp => by simp [defaultClient, hnp], fun hds => by simp [defaultClient, hds], fun hcs => ?_⟩
  refine ⟨?_, fun f => fs_cacheErr_irrelevant c m env f hcs⟩
  subst hbfs
  rcases hrel with ⟨-, hr⟩ | ⟨hne, -⟩
  · subst hr
    simp [Handle.hasCache, store_ok_hasCache_false env c.StorageProvider st hst]
  · exact absurd hcs hne

/-- Witness for C6: composing `cNoCache` (all sizing fields unset, cache
disabled) defaults the WAL, fan-out and data-size fields, produces a
cache-free chain, and ignores a failing cache constructor. -/
theorem fs_defaults_and_cache_sentinel_witness :
    cNoCacheFinal.MaxWALSize = 64 * 512 ∧
    cNoCacheFinal.NumPtrs = 12 ∧
    cNoCacheFinal.DataSize = 32 * 1024 ∧
    Handle.hasCache bfsNoCache = false ∧
    Client.FS cNoCache "/mnt/utah" { env0 with cacheErr := fun _ _ => some "cache down" } =
      Client.FS cNoCache "/mnt/utah" env0 :=
  have t := fs_defaults_and_cache_sentinel cNoCache "/mnt/utah" env0 bfsNoCache cNoCacheFinal rfl
  ⟨t.1 rfl, t.2.2.1 rfl, t.2.2.2.1 rfl, (t.2.2.2.2 rfl).1,
    (t.2.2.2.2 rfl).2 (fun _ _ => some "cache down")⟩

/-- C1 (amended): composition with an empty password never succeeds,
and when backend selection and the WAL and cache constructions do not
themselves fail, it fails with the missing-password error.  Contrary to
the original claim, the password check runs after backend selection,
not before (see the counterexample). -/
theorem fs_empty_password_never_succeeds (c : Client) (m : String) (env : Env)
    (hpw : c.Password = "") :
    isErr (Client.FS c m env).1 = true ∧
    (∀ st, StorageProvider.Store env c.StorageProvider = .ok st →
      (∀ i d n, env.walErr i d n = none) → (∀ i n, env.cacheErr i n = none) →
      (Client.FS c m env).1 = .error .missingPassword) := by
  constructor
  · cases hfs : Client.FS c m env with
    | mk r c₂ =>
      cases r with
      | ok bfs =>
        obtain ⟨-, hne, -⟩ := fs_ok_inversion c m env bfs c₂ hfs
        exact absurd hpw hne
      | error e => simp [isErr]
  · intro st hst hw hc
    have hsp : (defaultDataDir c m).StorageProvider = c.StorageProvider := by simp
    simp only [Client.FS, hsp, hst, newLocalWAL, hw, newCache, hc]
    split
    · rename_i e heq
      split at heq <;> simp at heq
    · simp [hpw]

/-- Witness for C1: an empty-password configuration with a working S3
provider fails with the missing-password error. -/
theorem fs_empty_password_never_succeeds_witness :
    isErr (Client.FS cNoPwdS3 "/mnt/utah" env0).1 = true ∧
    (Client.FS cNoPwdS3 "/mnt/utah" env0).1 = .error .missingPassword :=
  have t := fs_empty_password_never_succeeds cNoPwdS3 "/mnt/utah" env0 rfl
  ⟨t.1, t.2 (.s3 "id" "key" "bucket" "" "us-east-1") rfl (fun _ _ _ => rfl) (fun _ _ => rfl)⟩

/-- Counterexample to C1 as stated: with an empty password and no
provider, composition fails with the no-provider error, not the
missing-password error; and with an empty password and an unreachable
B2 backend, composition surfaces the backend connection error — so the
backend connection is attempted before the password is ever checked. -/
theorem fs_empty_password_counterexample :
    cNoPwdNoProv.Password = "" ∧
    (Client.FS cNoPwdNoProv "/mnt/utah" env0).1 = .error .noProvider ∧
    cNoPwdB2.Password = "" ∧
    (Client.FS cNoPwdB2 "/mnt/utah" envB2Down).1 = .error (.lib "b2 down") := by
  exact ⟨rfl, rfl, rfl, rfl⟩
